import Mathlib

/-!
# TCG Investor Pro — verification of the valuation and filtering logic

Shallow embedding of the pricing resolver, ROI/profit calculator,
grading-cost estimator, search/filter/sort pipeline, multi-source pricing
aggregation and portfolio operations of the repository, together with
theorems settling the specification claims.

Modelling conventions:
* JavaScript numbers are modelled as `ℚ`; where division by zero matters
  the result is modelled by `JsNum`, which carries the IEEE specials
  `Infinity`, `-Infinity` and `NaN` produced by JS division.
* A JS value that may be `null`/`undefined` is modelled as `Option ℚ`
  (or `Option String`); JS truthiness of such a value is `truthy`
  (present and nonzero).
* JS strings are Lean `String`s; `a.toLowerCase()` is `jsToLower`,
  `a.includes(b)` is `jsIncludes`.
-/

namespace TCG

/-- JS truthiness of a nullable number: present and nonzero
(`undefined`, `null` and `0` are falsy). -/
def truthy (x : Option ℚ) : Bool :=
  match x with
  | none => false
  | some v => v ≠ 0

/-- JS `a || b` where `a` is a nullable number and the whole expression is
used as a number: `a` if truthy, else `b`. -/
def jsOr (a : Option ℚ) (b : ℚ) : ℚ :=
  if truthy a then a.getD 0 else b

/-- JS `a || b` on two nullable numbers, keeping the nullable result. -/
def jsOrOpt (a b : Option ℚ) : Option ℚ :=
  if truthy a then a else b

/-- A JS number resulting from division: a finite rational or one of the
IEEE specials produced by dividing by zero. -/
inductive JsNum : Type
  | num (q : ℚ)
  | posInf
  | negInf
  | nan
  deriving DecidableEq

/-- JS division `a / b` on finite operands: finite quotient when `b ≠ 0`,
otherwise `Infinity`, `-Infinity` or `NaN` according to the sign of `a`. -/
def jsDiv (a b : ℚ) : JsNum :=
  if b = 0 then
    if 0 < a then JsNum.posInf else if a < 0 then JsNum.negInf else JsNum.nan
  else JsNum.num (a / b)

/-- Multiplying a JS division result by the positive literal `100`
(specials are preserved). -/
def jsMul100 (x : JsNum) : JsNum :=
  match x with
  | JsNum.num q => JsNum.num (q * 100)
  | x => x

/-- Per-character lower-casing, the model of `String.prototype.toLowerCase`. -/
def jsToLower (s : String) : String :=
  ⟨s.data.map Char.toLower⟩

/-- `needle` is an initial run of `hay` (character lists). -/
def leadMatch : List Char → List Char → Bool
  | _, [] => true
  | [], _ :: _ => false
  | h :: hs, n :: ns => h = n && leadMatch hs ns

/-- `needle` occurs contiguously inside `hay` (character lists). -/
def containsSeq : List Char → List Char → Bool
  | [], needle => needle.isEmpty
  | h :: t, needle => leadMatch (h :: t) needle || containsSeq t needle

/-- The model of `String.prototype.includes`. -/
def jsIncludes (s needle : String) : Bool :=
  containsSeq s.data needle.data

/-! ## Pricing resolver (src/portfolio.js, `PortfolioManager.getCurrentPrice`) -/

/-- One row of the `pricing_data` table as consumed by the front end:
per-grade price tiers, each possibly absent. -/
structure PricingTiers where
  ungraded_price : Option ℚ
  psa_10_price : Option ℚ
  psa_9_price : Option ℚ
  psa_8_price : Option ℚ
  psa_7_price : Option ℚ

/-- The `switch (item.grading_status)` of `getCurrentPrice`
(src/portfolio.js lines 333-339): each case is a JS `||` fallback chain
ending in `0`. -/
def resolvePrice (pricing : PricingTiers) (status : String) : ℚ :=
  if status = "psa-10" then
    jsOr pricing.psa_10_price (jsOr pricing.ungraded_price 0)
  else if status = "psa-9" then
    jsOr pricing.psa_9_price (jsOr pricing.psa_10_price (jsOr pricing.ungraded_price 0))
  else if status = "psa-8" then
    jsOr pricing.psa_8_price (jsOr pricing.psa_9_price (jsOr pricing.ungraded_price 0))
  else if status = "psa-7" then
    jsOr pricing.psa_7_price (jsOr pricing.psa_8_price (jsOr pricing.ungraded_price 0))
  else
    jsOr pricing.ungraded_price 0

/-- Card reference data joined onto a portfolio row (`item.cards`),
with its `pricing_data` array. -/
structure CardData where
  pricing_data : List PricingTiers

/-- A row of the user's portfolio as rendered by the front end. -/
structure PortfolioItem where
  purchase_price : ℚ
  quantity : ℚ
  grading_status : String
  cards : Option CardData

/-- `getCurrentPrice` (src/portfolio.js lines 327-340): the guard
`if (!item.cards?.pricing_data?.[0]) return item.purchase_price;`
followed by the grading-status switch on the first pricing record. -/
def getCurrentPrice (item : PortfolioItem) : ℚ :=
  match item.cards with
  | none => item.purchase_price
  | some c =>
    match c.pricing_data with
    | [] => item.purchase_price
    | p :: _ => resolvePrice p item.grading_status

/-- The fallback cascade as the spec words it: the ordered list of tiers
tried for a given grading status. -/
def cascadeTiers (status : String) (p : PricingTiers) : List (Option ℚ) :=
  if status = "psa-10" then [p.psa_10_price, p.ungraded_price]
  else if status = "psa-9" then [p.psa_9_price, p.psa_10_price, p.ungraded_price]
  else if status = "psa-8" then [p.psa_8_price, p.psa_9_price, p.ungraded_price]
  else if status = "psa-7" then [p.psa_7_price, p.psa_8_price, p.ungraded_price]
  else [p.ungraded_price]

/-- First present (non-missing, nonzero) tier of a cascade, `0` when every
tier is absent — the spec's description of the fallback resolution. -/
def firstPresent : List (Option ℚ) → ℚ
  | [] => 0
  | t :: rest => if truthy t then t.getD 0 else firstPresent rest

/-! ## ROI / profit calculator -/

/-- `DataSyncService.calculateROI` (src/api-services.js lines 507-510):
`if (!purchasePrice || !currentPrice || purchasePrice === 0) return 0;`
then the percentage formula. -/
def calculateROI (purchasePrice currentPrice : ℚ) : ℚ :=
  if purchasePrice = 0 ∨ currentPrice = 0 then 0
  else ((currentPrice - purchasePrice) / purchasePrice) * 100

/-- The profit computed by `renderPortfolioTable` (src/portfolio.js line 293)
and `generateCSV` (line 497): `(currentPrice - item.purchase_price) * quantity`. -/
def renderProfit (purchase current qty : ℚ) : ℚ :=
  (current - purchase) * qty

/-- The ROI computed by `renderPortfolioTable` (src/portfolio.js line 294)
and `generateCSV` (line 498):
`((currentPrice - item.purchase_price) / item.purchase_price) * 100`,
with no guard on the divisor. -/
def unguardedROI (purchase current : ℚ) : JsNum :=
  jsMul100 (jsDiv (current - purchase) purchase)

/-! ## Grading-cost estimator (src/DEPLOYMENT-CHECKLIST.md, `calculateGradingCosts`) -/

/-- Result record of `calculateGradingCosts`. -/
structure GradingCosts where
  psa : ℚ
  gamestop : ℚ

/-- `calculateGradingCosts` (src/DEPLOYMENT-CHECKLIST.md lines 682-697):
the ascending strict-less-than breakpoint table for the PSA fee, and the
flat GameStop fee. -/
def calculateGradingCosts (cardValue : ℚ) : GradingCosts :=
  { psa :=
      if cardValue < 199 then 19
      else if cardValue < 499 then 30
      else if cardValue < 999 then 50
      else if cardValue < 2499 then 75
      else if cardValue < 4999 then 150
      else if cardValue < 9999 then 300
      else 600,
    gamestop := 1999 / 100 }

/-! ## Search/filter/sort pipeline (src/DEPLOYMENT-CHECKLIST.md,
`getActiveFilters`, `searchCards`, `sortCards`) -/

/-- A card of the in-memory dataset as consumed by the pipeline. -/
structure MockCard where
  id : String
  name : String
  set : String
  setId : String
  number : String
  rarity : String
  type : String
  ungradedPrice : ℚ
  psa10Price : ℚ
  roi : ℚ
  trending : ℚ

/-- The filter record produced by `getActiveFilters`
(src/DEPLOYMENT-CHECKLIST.md lines 380-391) after its defaulting: empty
string means an unset categorical filter, numeric minima default to 0 and
maxima to `+Infinity` (modelled as `⊤` in `WithTop ℚ`). -/
structure Filters where
  set : String
  type : String
  rarity : String
  priceMin : ℚ
  priceMax : WithTop ℚ
  roiMin : ℚ
  roiMax : WithTop ℚ
  sortBy : String

/-- `parseFloat(...) || 0` of `getActiveFilters`: an empty or unparseable
minimum field defaults to 0 (an explicit 0 also yields 0). -/
def resolveMin (v : Option ℚ) : ℚ :=
  jsOr v 0

/-- `parseFloat(...) || Infinity` of `getActiveFilters`: an empty,
unparseable or zero maximum field defaults to `Infinity`. -/
def resolveMax (v : Option ℚ) : WithTop ℚ :=
  if truthy v then ((v.getD 0 : ℚ) : WithTop ℚ) else ⊤

/-- The filter predicate of `searchCards`
(src/DEPLOYMENT-CHECKLIST.md lines 402-427); `st` is the search term as
passed in, already lower-cased by the caller `performSearch` (line 362). -/
def cardMatches (card : MockCard) (st : String) (f : Filters) : Bool :=
  (st = "" || jsIncludes (jsToLower card.name) st ||
    jsIncludes (jsToLower card.set) st || jsIncludes (jsToLower card.number) st) &&
  (f.set = "" || card.setId = f.set) &&
  (f.type = "" || card.type = f.type) &&
  (f.rarity = "" || card.rarity = f.rarity) &&
  (decide (f.priceMin ≤ card.ungradedPrice) &&
    decide ((card.ungradedPrice : WithTop ℚ) ≤ f.priceMax)) &&
  (decide (f.roiMin ≤ card.roi) && decide ((card.roi : WithTop ℚ) ≤ f.roiMax))

/-- `sortCards` (src/DEPLOYMENT-CHECKLIST.md lines 441-460): the
`switch (sortBy)` of comparators passed to `Array.prototype.sort`.
The JS sort is stable and consistent with the comparator, so its contents
are modelled by a stable insertion sort ordered by `comparator ≤ 0`; the
default comparator returns `0` everywhere, which for a stable sort is the
identity. -/
def sortCards (cards : List MockCard) (sortBy : String) : List MockCard :=
  if sortBy = "price-desc" then
    List.insertionSort (fun a b => b.ungradedPrice ≤ a.ungradedPrice) cards
  else if sortBy = "price-asc" then
    List.insertionSort (fun a b => a.ungradedPrice ≤ b.ungradedPrice) cards
  else if sortBy = "roi-desc" then
    List.insertionSort (fun a b => b.roi ≤ a.roi) cards
  else if sortBy = "roi-asc" then
    List.insertionSort (fun a b => a.roi ≤ b.roi) cards
  else if sortBy = "name" then
    List.insertionSort (fun a b => a.name ≤ b.name) cards
  else if sortBy = "trending" then
    List.insertionSort (fun a b => b.trending ≤ a.trending) cards
  else cards

/-- The pipeline `query(cards, searchTerm, filters)`: `performSearch`
lower-cases the term (line 362), `searchCards` filters (lines 402-427)
and sorts (line 430). -/
def query (cards : List MockCard) (searchTerm : String) (f : Filters) : List MockCard :=
  sortCards (cards.filter fun c => cardMatches c (jsToLower searchTerm) f) f.sortBy

/-- The claim's conjunction, worded from the spec: case-insensitive
substring match on name/set/number (vacuous for the empty term), exact
equality on the set, type and rarity filters (vacuous when unset), and
inclusive membership of the ungraded price and the ROI in their ranges. -/
def specMatches (card : MockCard) (term : String) (f : Filters) : Prop :=
  (term = "" ∨ jsIncludes (jsToLower card.name) (jsToLower term) = true ∨
    jsIncludes (jsToLower card.set) (jsToLower term) = true ∨
    jsIncludes (jsToLower card.number) (jsToLower term) = true) ∧
  (f.set = "" ∨ card.setId = f.set) ∧
  (f.type = "" ∨ card.type = f.type) ∧
  (f.rarity = "" ∨ card.rarity = f.rarity) ∧
  (f.priceMin ≤ card.ungradedPrice ∧ (card.ungradedPrice : WithTop ℚ) ≤ f.priceMax) ∧
  (f.roiMin ≤ card.roi ∧ (card.roi : WithTop ℚ) ≤ f.roiMax)

/-! ### Heap model for the purity of the pipeline (C6)

`Array.prototype.filter` allocates a fresh array while
`Array.prototype.sort` mutates its receiver in place; to state that the
pipeline leaves its input array untouched we model the JS heap as a store
of arrays addressed by references. -/

/-- A store of card arrays: contents per reference, next fresh reference. -/
structure Store where
  mem : Nat → List MockCard
  next : Nat

/-- Allocate a fresh array holding `v`; returns the new store and the
fresh reference. -/
def jsAlloc (s : Store) (v : List MockCard) : Store × Nat :=
  (⟨fun i => if i = s.next then v else s.mem i, s.next + 1⟩, s.next)

/-- Overwrite the array at reference `r` in place. -/
def jsWrite (s : Store) (r : Nat) (v : List MockCard) : Store :=
  ⟨fun i => if i = r then v else s.mem i, s.next⟩

/-- Read the array at reference `r`. -/
def jsRead (s : Store) (r : Nat) : List MockCard :=
  s.mem r

/-- `searchCards` against the heap model: `filter` allocates a fresh
array (line 402), `sort` then mutates that fresh array in place
(line 442) and the fresh reference is returned (line 432). -/
def searchCardsHeap (s : Store) (r : Nat) (searchTerm : String) (f : Filters) :
    Store × Nat :=
  let st := jsToLower searchTerm
  let alloc := jsAlloc s ((jsRead s r).filter fun c => cardMatches c st f)
  let sorted := jsWrite alloc.1 alloc.2 (sortCards (jsRead alloc.1 alloc.2) f.sortBy)
  (sorted, alloc.2)

/-! ## Multi-source pricing aggregation
(src/api-services.js, `DataSyncService.getCardPricingFromMultipleSources`) -/

/-- Outcome of one entry of a `Promise.allSettled` join: fulfilled with a
value, or rejected. -/
inductive Settled (α : Type) : Type
  | fulfilled (value : α)
  | rejected

/-- One product row of a PriceCharting response. Price fields are
modelled post-`parsePrice`: `some q` is a field that parses to the
number `q`, `none` a missing or unparseable field (`parsePrice` returns
`null` exactly in that case). -/
structure PCItem where
  productName : Option String
  price : Option ℚ
  psa10Price : Option ℚ
  psa9Price : Option ℚ
  psa8Price : Option ℚ
  psa7Price : Option ℚ

/-- A PokemonPriceTracker response body (the fulfilled value may still be
`null`, hence `Option PPTData` at the use site). -/
structure PPTData where
  current_price : Option ℚ
  market_price : Option ℚ
  trending_score : Option ℚ

/-- The `combinedPricing` object being built up; absent keys are `none`.
`keys` tracks `Object.keys(combinedPricing).length > 0`: whether any
branch has added keys. -/
structure CombinedPricing where
  ungraded_price : Option ℚ := none
  psa_10_price : Option ℚ := none
  psa_9_price : Option ℚ := none
  psa_8_price : Option ℚ := none
  psa_7_price : Option ℚ := none
  trending_score : Option ℚ := none
  roi_percentage : Option ℚ := none
  data_source : Option String := none

/-- The `find` predicate over PriceCharting rows (src/api-services.js
lines 448-450): `item.productName && item.productName.toLowerCase()
.includes(cardName.toLowerCase())`. -/
def pcNameMatch (cardName : String) (it : PCItem) : Bool :=
  match it.productName with
  | none => false
  | some pn => jsIncludes (jsToLower pn) (jsToLower cardName)

/-- The object literal built from a matching PriceCharting row
(src/api-services.js lines 453-461). -/
def pcRecord (it : PCItem) : CombinedPricing :=
  { ungraded_price := it.price, psa_10_price := it.psa10Price,
    psa_9_price := it.psa9Price, psa_8_price := it.psa8Price,
    psa_7_price := it.psa7Price, data_source := some "pricecharting" }

/-- Step 1 of the aggregation: process the PriceCharting result
(src/api-services.js lines 447-463). An array value is always truthy;
the boolean records whether keys were added. -/
def multiStep1 (cardName : String) (pc : Settled (List PCItem)) :
    CombinedPricing × Bool :=
  match pc with
  | Settled.fulfilled items =>
    match items.find? (pcNameMatch cardName) with
    | some it => (pcRecord it, true)
    | none => ({}, false)
  | Settled.rejected => ({}, false)

/-- Step 2: process the PokemonPriceTracker result
(src/api-services.js lines 466-477): keep an existing truthy ungraded
price, otherwise take `current_price || market_price`; set the trending
score with default 0; mark the source. -/
def multiStep2 (ppt : Settled (Option PPTData)) (ck : CombinedPricing × Bool) :
    CombinedPricing × Bool :=
  match ppt with
  | Settled.fulfilled (some d) =>
    if truthy d.current_price || truthy d.market_price then
      ({ ck.1 with
          ungraded_price := jsOrOpt ck.1.ungraded_price (jsOrOpt d.current_price d.market_price),
          trending_score := some (jsOr d.trending_score 0),
          data_source := some (if ck.1.data_source.isSome then "multiple_apis" else "pokemonpricetracker") }, true)
    else ck
  | _ => ck

/-- Step 3: compute `roi_percentage` once both an ungraded and a PSA-10
price are resolved (src/api-services.js lines 480-482). -/
def multiStep3 (c : CombinedPricing) : CombinedPricing :=
  if truthy c.ungraded_price && truthy c.psa_10_price then
    { c with roi_percentage := some (calculateROI (c.ungraded_price.getD 0) (c.psa_10_price.getD 0)) }
  else c

/-- `getCardPricingFromMultipleSources` (src/api-services.js lines
437-489) on the settled results of its two upstream calls: `null` when no
source contributed any key. -/
def getCardPricingFromMultipleSources (cardName : String)
    (pc : Settled (List PCItem)) (ppt : Settled (Option PPTData)) :
    Option CombinedPricing :=
  let ck := multiStep2 ppt (multiStep1 cardName pc)
  if ck.2 then some (multiStep3 ck.1) else none

/-- `Promise.allSettled` entry: a fulfilled upstream call becomes a
fulfilled outcome, a rejected one a rejected outcome — rejection is
absorbed, never re-raised. -/
def toSettled {α : Type} (x : Except String α) : Settled α :=
  match x with
  | Except.ok v => Settled.fulfilled v
  | Except.error _ => Settled.rejected

/-- The aggregate call as its caller sees it: the upstream outcomes pass
through `Promise.allSettled` and the `try/catch` body; the result is an
ordinary value, an `Except.error` is never produced. -/
def getCardPricingAggregate (cardName : String)
    (pcE : Except String (List PCItem)) (pptE : Except String (Option PPTData)) :
    Except String (Option CombinedPricing) :=
  Except.ok (getCardPricingFromMultipleSources cardName (toSettled pcE) (toSettled pptE))

/-! ## Portfolio operations and the uniqueness invariant
(src/DEPLOYMENT-CHECKLIST.md `addToPortfolio`/`removeFromPortfolio`,
src/unnamed/part_000 `user_portfolios`) -/

/-- An in-memory portfolio entry (the spread of the found card plus the
purchase fields, src/DEPLOYMENT-CHECKLIST.md lines 1545-1552; only the
fields the claims mention are kept). -/
structure PortfolioCard where
  id : String
  purchasePrice : ℚ
  currentValue : ℚ
  profit : ℚ
  roi : ℚ

/-- The `portfolioCard` object literal built by `addToPortfolio`. -/
def mkPortfolioCard (card : MockCard) : PortfolioCard :=
  { id := card.id, purchasePrice := card.ungradedPrice,
    currentValue := card.psa10Price,
    profit := card.psa10Price - card.ungradedPrice -
      (calculateGradingCosts card.psa10Price).psa,
    roi := card.roi }

/-- `addToPortfolio` (src/DEPLOYMENT-CHECKLIST.md lines 1534-1566): look
the card up in the dataset, reject when absent, alert and leave the
portfolio unchanged when the id is already present, otherwise push. -/
def addToPortfolio (mock : List MockCard) (portfolio : List PortfolioCard)
    (cardId : String) : List PortfolioCard :=
  match mock.find? (fun c => c.id = cardId) with
  | none => portfolio
  | some card =>
    if portfolio.any (fun c => c.id = cardId) then portfolio
    else portfolio ++ [mkPortfolioCard card]

/-- `removeFromPortfolio` (src/DEPLOYMENT-CHECKLIST.md lines 1600-1604):
keep the entries whose id differs. -/
def removeFromPortfolio (portfolio : List PortfolioCard) (cardId : String) :
    List PortfolioCard :=
  portfolio.filter fun c => ¬ c.id = cardId

/-- A row of the `user_portfolios` table (src/unnamed/part_000 lines
72-85; only the uniqueness-relevant columns and the purchase data). -/
structure PortfolioRow where
  user_id : String
  card_id : String
  purchase_price : ℚ
  quantity : ℤ

/-- Distinctness of the natural key of `user_portfolios`. -/
def keyDistinct (a b : PortfolioRow) : Prop :=
  ¬ (a.user_id = b.user_id ∧ a.card_id = b.card_id)

/-- Insertion under the `UNIQUE (user_id, card_id)` constraint of the
`user_portfolios` DDL: a row whose key is already present is rejected
(`none`), otherwise the row is appended. -/
def insertPortfolioRow (tbl : List PortfolioRow) (r : PortfolioRow) :
    Option (List PortfolioRow) :=
  if tbl.any (fun q => q.user_id = r.user_id ∧ q.card_id = r.card_id) then none
  else some (tbl ++ [r])

/-! ## Concrete data for witnesses -/

/-- The filters used in concrete witnesses: everything unset, default
sort key. -/
def sampleFilters : Filters :=
  { set := "", type := "", rarity := "", priceMin := 0, priceMax := ⊤,
    roiMin := 0, roiMax := ⊤, sortBy := "price-desc" }

/-- A concrete card for witnesses. -/
def sampleCardA : MockCard :=
  { id := "c1", name := "Pikachu", set := "Base Set", setId := "base",
    number := "58", rarity := "Common", type := "Pokemon",
    ungradedPrice := 12, psa10Price := 300, roi := 40, trending := 5 }

/-- A second concrete card for witnesses, with a different price. -/
def sampleCardB : MockCard :=
  { id := "c2", name := "Charizard", set := "Base Set", setId := "base",
    number := "4", rarity := "Rare Holo", type := "Pokemon",
    ungradedPrice := 350, psa10Price := 5000, roi := 120, trending := 9 }

/-- An initial one-array store for the C6 witness. -/
def sampleStore : Store :=
  { mem := fun _ => [sampleCardA, sampleCardB], next := 1 }

/-- A concrete PriceCharting row for the C8 witness. -/
def pcSample : PCItem :=
  { productName := some "Charizard Pokemon", price := some 100,
    psa10Price := some 500, psa9Price := none, psa8Price := none,
    psa7Price := none }

/-- A concrete PokemonPriceTracker body for the C8 witness. -/
def pptSample : PPTData :=
  { current_price := some 10, market_price := none, trending_score := some 3 }

/-- A portfolio item with purchase price 0 and no pricing record — the C9
counterexample input. -/
def sampleZeroItem : PortfolioItem :=
  { purchase_price := 0, quantity := 1, grading_status := "ungraded",
    cards := none }

/-- A portfolio item with a positive purchase price and no pricing record
— the C9 witness input. -/
def sampleMissingItem : PortfolioItem :=
  { purchase_price := 150, quantity := 2, grading_status := "psa-10",
    cards := none }

/-- A concrete `user_portfolios` row for the C10 witness. -/
def sampleRow : PortfolioRow :=
  { user_id := "u1", card_id := "c1", purchase_price := 150, quantity := 1 }

end TCG

namespace TCG

/-- C1: for every price-tier record and grading status, `resolvePrice`
(the switch inside `getCurrentPrice`) equals the documented fallback
cascade — the first present (non-missing, nonzero) tier of
psa-10→{psa10, ungraded}, psa-9→{psa9, psa10, ungraded},
psa-8→{psa8, psa9, ungraded}, psa-7→{psa7, psa8, ungraded},
default→{ungraded}, and `0` when every tier of the cascade is absent;
in particular a present requested tier is returned exactly. -/
theorem resolvePrice_follows_cascade (p : PricingTiers) (status : String) :
    resolvePrice p status = firstPresent (cascadeTiers status p) ∧
    (∀ v : ℚ, v ≠ 0 → p.psa_10_price = some v → resolvePrice p "psa-10" = v) ∧
    (∀ v : ℚ, v ≠ 0 → p.psa_9_price = some v → resolvePrice p "psa-9" = v) ∧
    (∀ v : ℚ, v ≠ 0 → p.psa_8_price = some v → resolvePrice p "psa-8" = v) ∧
    (∀ v : ℚ, v ≠ 0 → p.psa_7_price = some v → resolvePrice p "psa-7" = v) ∧
    (∀ v : ℚ, v ≠ 0 → p.ungraded_price = some v → status ≠ "psa-10" →
      status ≠ "psa-9" → status ≠ "psa-8" → status ≠ "psa-7" →
      resolvePrice p status = v) := by
  refine ⟨?_, ?_, ?_, ?_, ?_, ?_⟩
  · unfold resolvePrice cascadeTiers
    split_ifs <;> simp [firstPresent, jsOr]
  · intro v hv hp
    simp [resolvePrice, jsOr, truthy, hp, hv]
  · intro v hv hp
    simp [resolvePrice, jsOr, truthy, hp, hv]
  · intro v hv hp
    simp [resolvePrice, jsOr, truthy, hp, hv]
  · intro v hv hp
    simp [resolvePrice, jsOr, truthy, hp, hv]
  · intro v hv hp h10 h9 h8 h7
    simp [resolvePrice, jsOr, truthy, hp, hv, h10, h9, h8, h7]

/-- C1 witness: the cascade theorem applied to a concrete record where the
requested PSA-9 tier is absent (zero) and PSA-10 is present. -/
theorem resolvePrice_follows_cascade_witness :
    resolvePrice
      { ungraded_price := some 3, psa_10_price := some 7, psa_9_price := some 0,
        psa_8_price := none, psa_7_price := none } "psa-10" = 7 := by
  exact (resolvePrice_follows_cascade
    { ungraded_price := some 3, psa_10_price := some 7, psa_9_price := some 0,
      psa_8_price := none, psa_7_price := none } "psa-10").2.1 7 (by norm_num) rfl

/-- C2 counterexample: `DataSyncService.calculateROI` is cited as the
ROI calculator, yet at purchasePrice = 150, currentPrice = 0 it returns
`0` while the claimed formula gives `-100`: the falsy test on
`currentPrice` short-circuits the formula. -/
theorem calculateROI_zero_current_counterexample :
    calculateROI 150 0 = 0 ∧
    ((0 - 150 : ℚ) / 150) * 100 = -100 ∧ (0 : ℚ) ≠ -100 := by
  refine ⟨by norm_num [calculateROI], by norm_num, by norm_num⟩

/-- C2 amended: the portfolio-table computation satisfies
profit = (currentPrice − purchasePrice) · quantity always and the ROI
formula whenever purchasePrice > 0; `calculateROI` satisfies the formula
whenever purchasePrice > 0 and currentPrice ≠ 0 (it returns 0 when
currentPrice = 0); for 150/5000/1 the results are 4850 and 9700/3 ≈ 3233.3. -/
theorem roi_profit_formula (p c q : ℚ) :
    renderProfit p c q = (c - p) * q ∧
    (0 < p → c ≠ 0 → calculateROI p c = ((c - p) / p) * 100) ∧
    (0 < p → unguardedROI p c = JsNum.num (((c - p) / p) * 100)) ∧
    renderProfit 150 5000 1 = 4850 ∧
    calculateROI 150 5000 = 9700 / 3 := by
  refine ⟨rfl, ?_, ?_, by norm_num [renderProfit], by norm_num [calculateROI]⟩
  · intro hp hc
    rw [calculateROI, if_neg]
    push_neg
    exact ⟨ne_of_gt hp, hc⟩
  · intro hp
    rw [unguardedROI, jsDiv, if_neg (ne_of_gt hp), jsMul100]

/-- C2 witness: the amended formula theorem applied at
purchasePrice = 150, currentPrice = 5000, quantity = 1. -/
theorem roi_profit_formula_witness :
    calculateROI 150 5000 = ((5000 - 150 : ℚ) / 150) * 100 ∧
    unguardedROI 150 5000 = JsNum.num (((5000 - 150 : ℚ) / 150) * 100) := by
  exact ⟨(roi_profit_formula 150 5000 1).2.1 (by norm_num) (by norm_num),
    (roi_profit_formula 150 5000 1).2.2.1 (by norm_num)⟩

/-- C3 counterexample: the guard does NOT hold on every ROI code path —
the portfolio-table rendering and CSV generation divide by
`item.purchase_price` unguarded, so at purchasePrice = 0,
currentPrice = 5000 the displayed ROI is `Infinity`, not `0`. -/
theorem unguardedROI_zero_purchase_counterexample :
    unguardedROI 0 5000 = JsNum.posInf ∧ JsNum.posInf ≠ JsNum.num 0 := by
  constructor
  · rw [unguardedROI, jsDiv, if_pos rfl, if_pos (by norm_num)]
    rfl
  · intro h
    cases h

/-- C3 amended: with purchasePrice = 0, `DataSyncService.calculateROI`
returns 0 (guarded, no exception) and profit = currentPrice · quantity on
the table/CSV path; but the portfolio-table and CSV ROI computations are
unguarded and produce `Infinity`, `-Infinity` or `NaN` (never `0`, never
an exception) according to the sign of currentPrice. -/
theorem roi_zero_purchase_behaviour (c q : ℚ) :
    calculateROI 0 c = 0 ∧
    renderProfit 0 c q = c * q ∧
    (0 < c → unguardedROI 0 c = JsNum.posInf) ∧
    (c < 0 → unguardedROI 0 c = JsNum.negInf) ∧
    (c = 0 → unguardedROI 0 c = JsNum.nan) := by
  refine ⟨by simp [calculateROI], by simp [renderProfit], ?_, ?_, ?_⟩
  · intro hc
    rw [unguardedROI, jsDiv, if_pos rfl, if_pos (by simpa using hc)]
    rfl
  · intro hc
    rw [unguardedROI, jsDiv, if_pos rfl, if_neg (by simp; linarith), if_pos (by simpa using hc)]
    rfl
  · intro hc
    subst hc
    rw [unguardedROI, jsDiv, if_pos rfl, if_neg (by norm_num), if_neg (by norm_num)]
    rfl

/-- C3 witness: the zero-purchase behaviour at currentPrice = 5000,
quantity = 2. -/
theorem roi_zero_purchase_behaviour_witness :
    calculateROI 0 5000 = 0 ∧ renderProfit 0 5000 2 = 5000 * 2 ∧
    unguardedROI 0 5000 = JsNum.posInf := by
  obtain ⟨h1, h2, h3, -, -⟩ := roi_zero_purchase_behaviour 5000 2
  exact ⟨h1, h2, h3 (by norm_num)⟩

/-- C4: the grading-cost estimator is the step function
<199→19, <499→30, <999→50, <2499→75, <4999→150, <9999→300, else→600 with
strict-less-than boundaries, and in particular
198.99→19, 199→30, 10000→600. -/
theorem calculateGradingCosts_step (v : ℚ) :
    (v < 199 → (calculateGradingCosts v).psa = 19) ∧
    (199 ≤ v → v < 499 → (calculateGradingCosts v).psa = 30) ∧
    (499 ≤ v → v < 999 → (calculateGradingCosts v).psa = 50) ∧
    (999 ≤ v → v < 2499 → (calculateGradingCosts v).psa = 75) ∧
    (2499 ≤ v → v < 4999 → (calculateGradingCosts v).psa = 150) ∧
    (4999 ≤ v → v < 9999 → (calculateGradingCosts v).psa = 300) ∧
    (9999 ≤ v → (calculateGradingCosts v).psa = 600) ∧
    (calculateGradingCosts (19899 / 100)).psa = 19 ∧
    (calculateGradingCosts 199).psa = 30 ∧
    (calculateGradingCosts 10000).psa = 600 := by
  refine ⟨?_, ?_, ?_, ?_, ?_, ?_, ?_,
    by norm_num [calculateGradingCosts],
    by norm_num [calculateGradingCosts],
    by norm_num [calculateGradingCosts]⟩ <;>
    intros <;>
    simp only [calculateGradingCosts] <;>
    split_ifs <;> first | rfl | linarith

/-- Lower-casing yields the empty string exactly for the empty string. -/
theorem jsToLower_empty_iff (s : String) : jsToLower s = "" ↔ s = "" := by
  have hmk : ∀ a b : List Char, String.mk a = String.mk b ↔ a = b := by
    intro a b
    constructor
    · intro h
      cases h
      rfl
    · intro h
      rw [h]
  cases s with
  | mk data =>
    show (⟨data.map Char.toLower⟩ : String) = ⟨[]⟩ ↔ (⟨data⟩ : String) = ⟨[]⟩
    rw [hmk, hmk, List.map_eq_nil_iff]

/-- Sorting never changes membership, whatever the sort key. -/
theorem mem_sortCards {l : List MockCard} {k : String} {c : MockCard} :
    c ∈ sortCards l k ↔ c ∈ l := by
  unfold sortCards
  split_ifs <;> simp

/-- C5: a card appears in the result of `query(cards, searchTerm, filters)`
iff it is an input card satisfying the conjunction of the case-insensitive
text match, the exact categorical matches and the inclusive numeric
ranges, each vacuous when unset. -/
theorem query_mem_iff (cards : List MockCard) (term : String) (f : Filters)
    (c : MockCard) :
    c ∈ query cards term f ↔ c ∈ cards ∧ specMatches c term f := by
  unfold query
  rw [mem_sortCards, List.mem_filter]
  refine and_congr_right fun _ => ?_
  simp only [cardMatches, specMatches, Bool.and_eq_true, Bool.or_eq_true,
    decide_eq_true_eq, jsToLower_empty_iff]
  tauto

/-- C6: against the heap model, the pipeline leaves the contents of its
input array unchanged, returns a reference distinct from the input, and
that fresh array holds exactly the filtered-then-sorted sequence. -/
theorem searchCardsHeap_pure (s : Store) (r : Nat) (term : String) (f : Filters)
    (hr : r < s.next) :
    jsRead (searchCardsHeap s r term f).1 r = jsRead s r ∧
    (searchCardsHeap s r term f).2 ≠ r ∧
    jsRead (searchCardsHeap s r term f).1 (searchCardsHeap s r term f).2 =
      sortCards ((jsRead s r).filter fun c => cardMatches c (jsToLower term) f)
        f.sortBy := by
  have h1 : r ≠ s.next := by omega
  have h2 : s.next ≠ r := by omega
  unfold searchCardsHeap jsAlloc jsWrite jsRead
  exact ⟨by simp [h1], h2, by simp⟩

/-- C6 witness: the purity theorem applied to a concrete store holding
one two-card array at reference 0. -/
theorem searchCardsHeap_pure_witness :
    jsRead (searchCardsHeap sampleStore 0 "Pika" sampleFilters).1 0 =
      jsRead sampleStore 0 ∧
    (searchCardsHeap sampleStore 0 "Pika" sampleFilters).2 ≠ 0 ∧
    jsRead (searchCardsHeap sampleStore 0 "Pika" sampleFilters).1
        (searchCardsHeap sampleStore 0 "Pika" sampleFilters).2 =
      sortCards ((jsRead sampleStore 0).filter fun c =>
        cardMatches c (jsToLower "Pika") sampleFilters) sampleFilters.sortBy :=
  searchCardsHeap_pure sampleStore 0 "Pika" sampleFilters (by decide)

/-- Two sorted permutations of each other agree when the order is
antisymmetric on the elements of the first. -/
theorem sorted_perm_eq_of_antisymmOn {α : Type} {r : α → α → Prop} :
    ∀ {l₁ l₂ : List α}, l₁.Perm l₂ → l₁.Pairwise r → l₂.Pairwise r →
      (∀ a ∈ l₁, ∀ b ∈ l₁, r a b → r b a → a = b) → l₁ = l₂ := by
  intro l₁
  induction l₁ with
  | nil =>
    intro l₂ hp _ _ _
    exact hp.symm.eq_nil.symm
  | cons a t ih =>
    intro l₂ hp h₁ h₂ anti
    cases l₂ with
    | nil => exact (List.cons_ne_nil a t hp.eq_nil).elim
    | cons b t₂ =>
      have hab : a = b := by
        by_contra hne
        have ha2 : a ∈ t₂ := by
          rcases List.mem_cons.mp (hp.mem_iff.mp (List.mem_cons_self a t)) with h | h
          · exact absurd h hne
          · exact h
        have hb1 : b ∈ t := by
          rcases List.mem_cons.mp (hp.symm.mem_iff.mp (List.mem_cons_self b t₂)) with h | h
          · exact absurd h.symm hne
          · exact h
        have rab : r a b := (List.pairwise_cons.mp h₁).1 b hb1
        have rba : r b a := (List.pairwise_cons.mp h₂).1 a ha2
        exact hne (anti a (List.mem_cons_self a t) b (List.mem_cons_of_mem a hb1) rab rba)
      subst hab
      have ht : t = t₂ :=
        ih hp.cons_inv (List.pairwise_cons.mp h₁).2 (List.pairwise_cons.mp h₂).2
          (fun x hx y hy => anti x (List.mem_cons_of_mem a hx) y (List.mem_cons_of_mem a hy))
      rw [ht]

/-- C7: on any card list with pairwise distinct ungraded prices, sorting
by `price-desc` yields exactly the reverse of sorting by `price-asc`. -/
theorem sortCards_desc_eq_reverse_asc (l : List MockCard)
    (h : (l.map fun c => c.ungradedPrice).Nodup) :
    sortCards l "price-desc" = (sortCards l "price-asc").reverse := by
  have hinj : ∀ x ∈ l, ∀ y ∈ l, x.ungradedPrice = y.ungradedPrice → x = y :=
    fun x hx y hy hxy => List.inj_on_of_nodup_map h hx hy hxy
  have hdesc : sortCards l "price-desc" =
      List.insertionSort (fun a b => b.ungradedPrice ≤ a.ungradedPrice) l := by
    simp [sortCards]
  have hasc : sortCards l "price-asc" =
      List.insertionSort (fun a b => a.ungradedPrice ≤ b.ungradedPrice) l := by
    simp [sortCards]
  rw [hdesc, hasc]
  set rd : MockCard → MockCard → Prop := fun a b => b.ungradedPrice ≤ a.ungradedPrice with hrd
  set ra : MockCard → MockCard → Prop := fun a b => a.ungradedPrice ≤ b.ungradedPrice with hra
  haveI : IsTotal MockCard rd := ⟨fun a b => le_total b.ungradedPrice a.ungradedPrice⟩
  haveI : IsTrans MockCard rd := ⟨fun _ _ _ hab hbc => le_trans hbc hab⟩
  haveI : IsTotal MockCard ra := ⟨fun a b => le_total a.ungradedPrice b.ungradedPrice⟩
  haveI : IsTrans MockCard ra := ⟨fun _ _ _ hab hbc => le_trans hab hbc⟩
  have permA : (List.insertionSort rd l).Perm l := List.perm_insertionSort rd l
  have permB : (List.insertionSort ra l).Perm l := List.perm_insertionSort ra l
  have sortedA : (List.insertionSort rd l).Pairwise rd := List.sorted_insertionSort rd l
  have sortedB : (List.insertionSort ra l).Pairwise ra := List.sorted_insertionSort ra l
  have sortedBrev : (List.insertionSort ra l).reverse.Pairwise rd :=
    List.pairwise_reverse.mpr sortedB
  have permAB : (List.insertionSort rd l).Perm (List.insertionSort ra l).reverse :=
    permA.trans (permB.symm.trans (List.reverse_perm (List.insertionSort ra l)).symm)
  refine sorted_perm_eq_of_antisymmOn permAB sortedA sortedBrev ?_
  intro x hx y hy hxy hyx
  have hx' : x ∈ l := permA.subset hx
  have hy' : y ∈ l := permA.subset hy
  exact hinj x hx' y hy' (le_antisymm hyx hxy)

/-- C7 witness: the reversal theorem applied to a concrete two-card list
with distinct prices. -/
theorem sortCards_desc_eq_reverse_asc_witness :
    sortCards [sampleCardA, sampleCardB] "price-desc" =
      (sortCards [sampleCardA, sampleCardB] "price-asc").reverse :=
  sortCards_desc_eq_reverse_asc [sampleCardA, sampleCardB] (by decide)

/-- C8: the multi-source aggregation tolerates the failure of either
upstream source: a rejected PriceCharting call with a fulfilled
PokemonPriceTracker response still yields that source's pricing, a
rejected PokemonPriceTracker call with a matching PriceCharting row still
yields that row's pricing; whenever the combined record has both a
truthy ungraded and PSA-10 price its `roi_percentage` is set; and the
aggregate call never surfaces an upstream error. -/
theorem multiSource_tolerates_source_failure (cardName : String) :
    (∀ d : PPTData, (truthy d.current_price || truthy d.market_price) = true →
      getCardPricingFromMultipleSources cardName Settled.rejected
          (Settled.fulfilled (some d)) =
        some { ungraded_price := jsOrOpt d.current_price d.market_price,
               trending_score := some (jsOr d.trending_score 0),
               data_source := some "pokemonpricetracker" }) ∧
    (∀ (items : List PCItem) (it : PCItem),
      items.find? (pcNameMatch cardName) = some it →
      getCardPricingFromMultipleSources cardName (Settled.fulfilled items)
          Settled.rejected =
        some (multiStep3 (pcRecord it))) ∧
    (∀ (pc : Settled (List PCItem)) (ppt : Settled (Option PPTData))
        (c : CombinedPricing),
      getCardPricingFromMultipleSources cardName pc ppt = some c →
      truthy c.ungraded_price = true → truthy c.psa_10_price = true →
      c.roi_percentage =
        some (calculateROI (c.ungraded_price.getD 0) (c.psa_10_price.getD 0))) ∧
    (∀ (pcE : Except String (List PCItem)) (pptE : Except String (Option PPTData))
        (e : String),
      getCardPricingAggregate cardName pcE pptE ≠ Except.error e) := by
  refine ⟨?_, ?_, ?_, ?_⟩
  · intro d hd
    simp only [getCardPricingFromMultipleSources, multiStep1, multiStep2, hd,
      if_true]
    simp [multiStep3, jsOrOpt, truthy]
  · intro items it hit
    simp only [getCardPricingFromMultipleSources, multiStep1, multiStep2, hit]
    simp
  · intro pc ppt c hres hu hp
    simp only [getCardPricingFromMultipleSources] at hres
    by_cases hk : (multiStep2 ppt (multiStep1 cardName pc)).2 = true
    · rw [if_pos hk] at hres
      have hc : c = multiStep3 (multiStep2 ppt (multiStep1 cardName pc)).1 :=
        (Option.some.injEq _ _ ▸ hres).symm
      subst hc
      set c2 := (multiStep2 ppt (multiStep1 cardName pc)).1 with hc2
      by_cases hb : (truthy c2.ungraded_price && truthy c2.psa_10_price) = true
      · simp [multiStep3, hb]
      · exfalso
        have hu2 : truthy (multiStep3 c2).ungraded_price = truthy c2.ungraded_price := by
          simp [multiStep3]
          split_ifs <;> rfl
        have hp2 : truthy (multiStep3 c2).psa_10_price = truthy c2.psa_10_price := by
          simp [multiStep3]
          split_ifs <;> rfl
        rw [hu2] at hu
        rw [hp2] at hp
        simp [hu, hp] at hb
    · rw [if_neg hk] at hres
      exact Option.noConfusion hres
  · intro pcE pptE e h
    exact Except.noConfusion h

/-- C8 witness: the partial-failure theorem applied with one source
rejected and the other fulfilled, in both directions, and the ROI
conjunct at a record with both prices resolved. -/
theorem multiSource_tolerates_source_failure_witness :
    getCardPricingFromMultipleSources "charizard" Settled.rejected
        (Settled.fulfilled (some pptSample)) =
      some { ungraded_price := jsOrOpt pptSample.current_price pptSample.market_price,
             trending_score := some (jsOr pptSample.trending_score 0),
             data_source := some "pokemonpricetracker" } ∧
    getCardPricingFromMultipleSources "charizard" (Settled.fulfilled [pcSample])
        Settled.rejected =
      some (multiStep3 (pcRecord pcSample)) ∧
    (multiStep3 (pcRecord pcSample)).roi_percentage =
      some (calculateROI ((multiStep3 (pcRecord pcSample)).ungraded_price.getD 0)
        ((multiStep3 (pcRecord pcSample)).psa_10_price.getD 0)) := by
  have h := multiSource_tolerates_source_failure "charizard"
  have h2 := h.2.1 [pcSample] pcSample rfl
  exact ⟨h.1 pptSample (by decide), h2,
    h.2.2.1 (Settled.fulfilled [pcSample]) Settled.rejected _ h2 (by decide) (by decide)⟩

/-- C9 counterexample: a portfolio item with purchase price 0 and no
pricing record does return its own purchase price as current price, but
the rendered ROI is `NaN` (0/0), not zero. -/
theorem missing_pricing_zero_purchase_counterexample :
    getCurrentPrice sampleZeroItem = sampleZeroItem.purchase_price ∧
    unguardedROI sampleZeroItem.purchase_price (getCurrentPrice sampleZeroItem) =
      JsNum.nan ∧
    JsNum.nan ≠ JsNum.num 0 := by
  refine ⟨rfl, ?_, by decide⟩
  have hg : getCurrentPrice sampleZeroItem = 0 := rfl
  have hp : sampleZeroItem.purchase_price = 0 := rfl
  rw [hg, hp, unguardedROI, jsDiv]
  norm_num [jsMul100]

/-- C9 amended: for every portfolio item whose card carries no pricing
record, `getCurrentPrice` returns the item's own purchase price, the
profit is zero, and — whenever the purchase price is nonzero — the
rendered ROI is exactly zero (at purchase price 0 it is `NaN` instead). -/
theorem getCurrentPrice_missing_pricing (item : PortfolioItem)
    (h : item.cards = none ∨ ∃ c, item.cards = some c ∧ c.pricing_data = []) :
    getCurrentPrice item = item.purchase_price ∧
    renderProfit item.purchase_price (getCurrentPrice item) item.quantity = 0 ∧
    (item.purchase_price ≠ 0 →
      unguardedROI item.purchase_price (getCurrentPrice item) = JsNum.num 0) := by
  have hg : getCurrentPrice item = item.purchase_price := by
    rcases h with h | ⟨c, hc, hpd⟩
    · simp [getCurrentPrice, h]
    · simp [getCurrentPrice, hc, hpd]
  refine ⟨hg, ?_, ?_⟩
  · rw [renderProfit, hg, sub_self, zero_mul]
  · intro hp
    rw [unguardedROI, hg, jsDiv, sub_self, if_neg hp, zero_div, jsMul100, zero_mul]

/-- C9 witness: the amended theorem applied to an item with purchase
price 150 and no card data. -/
theorem getCurrentPrice_missing_pricing_witness :
    getCurrentPrice sampleMissingItem = sampleMissingItem.purchase_price ∧
    renderProfit sampleMissingItem.purchase_price (getCurrentPrice sampleMissingItem)
      sampleMissingItem.quantity = 0 ∧
    unguardedROI sampleMissingItem.purchase_price (getCurrentPrice sampleMissingItem) =
      JsNum.num 0 := by
  have h := getCurrentPrice_missing_pricing sampleMissingItem (Or.inl rfl)
  exact ⟨h.1, h.2.1, h.2.2 (by norm_num [sampleMissingItem])⟩

/-- C10: `addToPortfolio` leaves the portfolio unchanged when the card id
is already present; both `addToPortfolio` and `removeFromPortfolio`
preserve distinctness of the card ids; and insertion under the
`UNIQUE (user_id, card_id)` constraint preserves pairwise-distinct
natural keys in `user_portfolios`. -/
theorem portfolio_unique_ids (mock : List MockCard)
    (portfolio : List PortfolioCard) (cardId : String) :
    ((portfolio.any fun c => c.id = cardId) = true →
      addToPortfolio mock portfolio cardId = portfolio) ∧
    ((portfolio.map fun c => c.id).Nodup →
      ((addToPortfolio mock portfolio cardId).map fun c => c.id).Nodup) ∧
    ((portfolio.map fun c => c.id).Nodup →
      ((removeFromPortfolio portfolio cardId).map fun c => c.id).Nodup) ∧
    (∀ (tbl : List PortfolioRow) (r : PortfolioRow) (tbl' : List PortfolioRow),
      tbl.Pairwise keyDistinct → insertPortfolioRow tbl r = some tbl' →
      tbl'.Pairwise keyDistinct) := by
  refine ⟨?_, ?_, ?_, ?_⟩
  · intro h
    cases hf : mock.find? (fun c => c.id = cardId) with
    | none => simp [addToPortfolio, hf]
    | some card => simp [addToPortfolio, hf, h]
  · intro hnd
    cases hf : mock.find? (fun c => c.id = cardId) with
    | none => simpa [addToPortfolio, hf] using hnd
    | some card =>
      by_cases hany : (portfolio.any fun c => c.id = cardId) = true
      · simpa [addToPortfolio, hf, hany] using hnd
      · have hid : card.id = cardId := by
          have := List.find?_some hf
          simpa using this
        have hnotmem : cardId ∉ portfolio.map fun c => c.id := by
          intro hmem
          apply hany
          rw [List.any_eq_true]
          obtain ⟨x, hx, hxid⟩ := List.mem_map.mp hmem
          exact ⟨x, hx, by simpa using hxid⟩
        have hstep : addToPortfolio mock portfolio cardId =
            portfolio ++ [mkPortfolioCard card] := by
          simp [addToPortfolio, hf, hany]
        rw [hstep, List.map_append]
        refine List.Nodup.append hnd (List.nodup_singleton _) ?_
        intro a ha hb
        simp only [List.map_cons, List.map_nil, List.mem_singleton] at hb
        subst hb
        exact hnotmem (by simpa [mkPortfolioCard, hid] using ha)
  · intro hnd
    exact List.Nodup.sublist ((List.filter_sublist portfolio).map _) hnd
  · intro tbl r tbl' hpw hins
    by_cases hany : (tbl.any fun q => q.user_id = r.user_id ∧ q.card_id = r.card_id) = true
    · rw [insertPortfolioRow, if_pos hany] at hins
      exact Option.noConfusion hins
    · rw [insertPortfolioRow, if_neg hany] at hins
      have htbl : tbl' = tbl ++ [r] := (Option.some.injEq _ _ ▸ hins).symm
      subst htbl
      rw [List.pairwise_append]
      refine ⟨hpw, List.pairwise_singleton _ _, ?_⟩
      intro a ha b hb
      rw [List.mem_singleton] at hb
      subst hb
      intro hkey
      apply hany
      rw [List.any_eq_true]
      exact ⟨a, ha, by simpa using hkey⟩

/-- C10 witness: the invariant theorem applied to a concrete dataset,
portfolio and table. -/
theorem portfolio_unique_ids_witness :
    addToPortfolio [sampleCardA] [mkPortfolioCard sampleCardA] "c1" =
      [mkPortfolioCard sampleCardA] ∧
    ((addToPortfolio [sampleCardA] [] "c1").map fun c => c.id).Nodup ∧
    ((removeFromPortfolio [mkPortfolioCard sampleCardA] "c1").map fun c => c.id).Nodup ∧
    ([] ++ [sampleRow] : List PortfolioRow).Pairwise keyDistinct := by
  refine ⟨(portfolio_unique_ids [sampleCardA] [mkPortfolioCard sampleCardA] "c1").1 (by decide),
    (portfolio_unique_ids [sampleCardA] [] "c1").2.1 (by decide),
    (portfolio_unique_ids [sampleCardA] [mkPortfolioCard sampleCardA] "c1").2.2.1 (by decide),
    (portfolio_unique_ids [] [] "x").2.2.2 [] sampleRow ([] ++ [sampleRow])
      List.Pairwise.nil rfl⟩

/-- C4 witness: the step theorem applied at one interior point of each fee
tier. -/
theorem calculateGradingCosts_step_witness :
    (calculateGradingCosts 100).psa = 19 ∧
    (calculateGradingCosts 300).psa = 30 ∧
    (calculateGradingCosts 700).psa = 50 ∧
    (calculateGradingCosts 2000).psa = 75 ∧
    (calculateGradingCosts 3000).psa = 150 ∧
    (calculateGradingCosts 5000).psa = 300 ∧
    (calculateGradingCosts 20000).psa = 600 := by
  refine ⟨(calculateGradingCosts_step 100).1 (by norm_num),
    (calculateGradingCosts_step 300).2.1 (by norm_num) (by norm_num),
    (calculateGradingCosts_step 700).2.2.1 (by norm_num) (by norm_num),
    (calculateGradingCosts_step 2000).2.2.2.1 (by norm_num) (by norm_num),
    (calculateGradingCosts_step 3000).2.2.2.2.1 (by norm_num) (by norm_num),
    (calculateGradingCosts_step 5000).2.2.2.2.2.1 (by norm_num) (by norm_num),
    (calculateGradingCosts_step 20000).2.2.2.2.2.2.1 (by norm_num)⟩

end TCG
